import Mathlib

/-!
Verification of the USB Cable Capability Analyzer's core engine.

This file shallowly embeds the pure analysis function `analyze_cable` of
`usb_cable_tool.py` (lines 51-279) in Lean 4 and proves properties of the
embedding.  Python values are modelled as follows:

* `active_pins : set[str]` is modelled as a `List String`; the embedding
  consults it only through membership (`List.contains`), mirroring the
  Python code, which consults the set only through `&`, `issubset` and
  cardinalities of intersections with fixed literal sets.
* `pin_counts : dict[str, int] | None` is modelled as an
  `Option (List (String × Nat))` association list; `dict.get(k, 0)` becomes
  `dictGet`, and `pin_counts or {}` becomes `Option.getD _ []`.
* `left_connector`/`right_connector : str | None` become `Option String`;
  `x or ""` becomes `Option.getD _ ""`; the Python substring test
  `needle in hay` becomes `substrIn` (contiguous-substring occurrence,
  computed structurally over the character lists so the kernel can
  evaluate it).
* `left_pins_checked`/`right_pins_checked : set[str] | None` become
  `List String` (the empty list standing for `None` or the empty set,
  which Python treats identically via truthiness).
* The checked-pins sort key `int(p.split()[0]) if p.split()[0].isdigit()
  else 999` can raise: IndexError when `p.split()` is empty, and — for
  non-ASCII labels only — ValueError when the first token passes
  `isdigit()` with non-decimal digit characters (e.g. '²').  The model is
  exact for ASCII labels: there `analyze_cable` returns `none` (modelling
  the IndexError) exactly when the Python function raises.  The
  non-ASCII ValueError path is not represented, so the totality theorem
  restricts its checked-pin labels to ASCII.
-/

namespace USBCable

/-- Source line 28: `LANE_1 = {"TX1+", "TX1-", "RX1+", "RX1-"}`. -/
def LANE_1 : List String := ["TX1+", "TX1-", "RX1+", "RX1-"]

/-- Source line 29: `LANE_2 = {"TX2+", "TX2-", "RX2+", "RX2-"}`. -/
def LANE_2 : List String := ["TX2+", "TX2-", "RX2+", "RX2-"]

/-- Source lines 22-25: the eight SuperSpeed pins. -/
def SS_PINS : List String :=
  ["TX1+", "TX1-", "RX1+", "RX1-", "TX2+", "TX2-", "RX2+", "RX2-"]

/-- `len(s & active)` for a duplicate-free literal set `s`: the number of
pins of `s` that are members of `active`. -/
def interCount (s active : List String) : Nat :=
  (s.filter (fun p => active.contains p)).length

/-- Python `d.get(k, 0)` on the association-list model of a dict. -/
def dictGet (d : List (String × Nat)) (k : String) : Nat :=
  ((d.find? (fun kv => kv.fst == k)).map Prod.snd).getD 0

/-- Whether the first character list leads (is an initial segment of) the
second. -/
def listLeads : List Char → List Char → Bool
  | [], _ => true
  | _ :: _, [] => false
  | a :: as, b :: bs => a == b && listLeads as bs

/-- Whether the first character list occurs contiguously anywhere in the
second. -/
def subOccurs (needle : List Char) : List Char → Bool
  | [] => listLeads needle []
  | c :: t => listLeads needle (c :: t) || subOccurs needle t

/-- Python `needle in hay`: `needle` occurs as a contiguous substring. -/
def substrIn (needle hay : String) : Bool :=
  subOccurs needle.data hay.data

/-- Python `s.startswith(pre)`. -/
def strStartsWith (s pre : String) : Bool :=
  listLeads pre.data s.data

/-- Source line 83: `usb2 = {"D+", "D-"}.issubset(active_pins)`. -/
def usb2 (active : List String) : Bool :=
  active.contains "D+" && active.contains "D-"

/-- Source line 84: exactly one of D+/D- is active. -/
def usb2_partial (active : List String) : Bool :=
  interCount ["D+", "D-"] active == 1

/-- Source line 87: `vbus_count = pin_counts.get("VBUS", 0)` after
`pin_counts = pin_counts or {}` (line 86). -/
def vbus_count (counts : Option (List (String × Nat))) : Nat :=
  dictGet (counts.getD []) "VBUS"

/-- Source line 88: `gnd_count = pin_counts.get("GND", 0)`. -/
def gnd_count (counts : Option (List (String × Nat))) : Nat :=
  dictGet (counts.getD []) "GND"

/-- Source line 91: `lane1_pins = LANE_1 & active_pins`. -/
def lane1_pins (active : List String) : List String :=
  LANE_1.filter (fun p => active.contains p)

/-- Source line 92: `lane2_pins = LANE_2 & active_pins`. -/
def lane2_pins (active : List String) : List String :=
  LANE_2.filter (fun p => active.contains p)

/-- Source line 94: `lane1_complete = len(lane1_pins) == 4`. -/
def lane1_complete (active : List String) : Bool :=
  (lane1_pins active).length == 4

/-- Source line 95: `lane2_complete = len(lane2_pins) == 4`. -/
def lane2_complete (active : List String) : Bool :=
  (lane2_pins active).length == 4

/-- Source line 96: `ss_count = len(SS_PINS & active_pins)`. -/
def ss_count (active : List String) : Nat :=
  interCount SS_PINS active

/-- Source line 97: `full_ss = ss_count == 8`. -/
def full_ss (active : List String) : Bool :=
  ss_count active == 8

/-- Source line 98: `partial_ss = 0 < ss_count < 8`. -/
def partial_ss (active : List String) : Bool :=
  decide (0 < ss_count active) && decide (ss_count active < 8)

/-- Source line 101: `cc_count = len({"CC1", "CC2"} & active_pins)`. -/
def cc_count (active : List String) : Nat :=
  interCount ["CC1", "CC2"] active

/-- Source line 102: `cc_present = cc_count > 0`. -/
def cc_present (active : List String) : Bool :=
  decide (0 < cc_count active)

/-- Source line 103: `sbu_count = len({"SBU1", "SBU2"} & active_pins)`. -/
def sbu_count (active : List String) : Nat :=
  interCount ["SBU1", "SBU2"] active

/-- Source lines 106-107: `left_connector = left_connector or ""`. -/
def connStr (c : Option String) : String := c.getD ""

/-- Source line 109: `left_is_usb_c = "Type C" in left_connector`. -/
def left_is_usb_c (lc : Option String) : Bool := substrIn "Type C" (connStr lc)

/-- Source line 110: `right_is_usb_c = "Type C" in right_connector`. -/
def right_is_usb_c (rc : Option String) : Bool := substrIn "Type C" (connStr rc)

/-- Source line 111: `usb_c_any = left_is_usb_c or right_is_usb_c`. -/
def usb_c_any (lc rc : Option String) : Bool :=
  left_is_usb_c lc || right_is_usb_c rc

/-- Source line 112: `usb_c_both = left_is_usb_c and right_is_usb_c`. -/
def usb_c_both (lc rc : Option String) : Bool :=
  left_is_usb_c lc && right_is_usb_c rc

/-- Source line 114: `left_is_usb3 = "3.0" in left_connector`. -/
def left_is_usb3 (lc : Option String) : Bool := substrIn "3.0" (connStr lc)

/-- Source line 115: `right_is_usb3 = "3.0" in right_connector`. -/
def right_is_usb3 (rc : Option String) : Bool := substrIn "3.0" (connStr rc)

/-- Source line 116: `usb3_any = left_is_usb3 or right_is_usb3`. -/
def usb3_any (lc rc : Option String) : Bool :=
  left_is_usb3 lc || right_is_usb3 rc

/-- Source line 117: `usb2_only = not usb3_any`. -/
def usb2_only (lc rc : Option String) : Bool := ! usb3_any lc rc

/-- Source line 119: `legacy_usb2_candidate = usb2 and usb2_only and not usb_c_any`. -/
def legacy_usb2_candidate (active : List String) (lc rc : Option String) : Bool :=
  usb2 active && usb2_only lc rc && ! usb_c_any lc rc

/-- Source line 120: `legacy_usb3_candidate = usb2 and usb3_any and not usb_c_any`. -/
def legacy_usb3_candidate (active : List String) (lc rc : Option String) : Bool :=
  usb2 active && usb3_any lc rc && ! usb_c_any lc rc

/-- Source line 121: `full_usb_c_candidate = usb_c_both and left_is_usb3 and right_is_usb3`. -/
def full_usb_c_candidate (lc rc : Option String) : Bool :=
  usb_c_both lc rc && left_is_usb3 lc && right_is_usb3 rc

/-- Source line 123: `expected_ss_pins = 8 if full_usb_c_candidate else (4 if usb3_any else 0)`. -/
def expected_ss_pins (lc rc : Option String) : Nat :=
  if full_usb_c_candidate lc rc then 8 else if usb3_any lc rc then 4 else 0

/-- Source lines 124-129: the base mismatch condition, plus the forced
mismatch when a legacy (non-USB-C) 3.0 connector pair sees Lane-2 pins. -/
def mismatch_ss (active : List String) (lc rc : Option String) : Bool :=
  ((expected_ss_pins lc rc == 0 && decide (0 < ss_count active))
    || (decide (0 < expected_ss_pins lc rc)
        && decide (expected_ss_pins lc rc < ss_count active)))
  || (usb3_any lc rc && ! usb_c_any lc rc
        && decide (0 < (lane2_pins active).length))

/-- Source lines 132-135: power expectations vary by connector selection. -/
def power_full (counts : Option (List (String × Nat))) (lc rc : Option String) : Bool :=
  if full_usb_c_candidate lc rc then
    decide (2 ≤ vbus_count counts) && decide (4 ≤ gnd_count counts)
  else
    decide (1 ≤ vbus_count counts) && decide (1 ≤ gnd_count counts)

/-- Source line 137: `power_partial = (vbus_count > 0 or gnd_count > 0) and not power_full`. -/
def power_partial (counts : Option (List (String × Nat))) (lc rc : Option String) : Bool :=
  (decide (0 < vbus_count counts) || decide (0 < gnd_count counts))
    && ! power_full counts lc rc

/-- Source lines 145-148: the number of active TX pins of a lane. -/
def tx_active (lane active : List String) : Nat :=
  ((lane.filter (fun p => strStartsWith p "TX")).filter (fun p => active.contains p)).length

/-- Source lines 146-149: the number of active RX pins of a lane. -/
def rx_active (lane active : List String) : Nat :=
  ((lane.filter (fun p => strStartsWith p "RX")).filter (fun p => active.contains p)).length

/-- Source lines 151-154: the broken-pair entries contributed by one lane. -/
def laneDefects (name : String) (lane active : List String) : List String :=
  (if tx_active lane active == 1 then [name ++ " TX pair broken"] else [])
    ++ (if rx_active lane active == 1 then [name ++ " RX pair broken"] else [])

/-- Source lines 141-163: the `broken_pairs` list, in the source's append
order: lane defects (only when `expected_ss_pins > 0`), then the USB 2.0
pair, then incomplete power, then missing CC wiring. -/
def broken_pairs (active : List String) (counts : Option (List (String × Nat)))
    (lc rc : Option String) : List String :=
  (if decide (0 < expected_ss_pins lc rc) then
      laneDefects "Lane 1" LANE_1 active ++ laneDefects "Lane 2" LANE_2 active
    else [])
    ++ (if usb2_partial active then ["USB 2.0 D+/D- pair broken"] else [])
    ++ (if power_partial counts lc rc then ["Power wiring incomplete (VBUS/GND)"] else [])
    ++ (if usb_c_any lc rc && cc_count active == 0 then
          ["CC wiring missing (USB-C selected)"]
        else [])

/-- Source lines 162-165: the `elif` branch emitting the advisory CC
warning (reached only when the fatal CC condition of the `if` is false). -/
def wiring_warnings (active : List String) (lc rc : Option String) : List String :=
  if ! (usb_c_any lc rc && cc_count active == 0)
      && full_usb_c_candidate lc rc && cc_count active == 1 then
    ["CC wiring incomplete (USB-C)"]
  else []

/-- Source line 171: `single_lane_ss = (lane1_complete ^ lane2_complete) and ss_count == 4`. -/
def single_lane_ss (active : List String) : Bool :=
  (lane1_complete active != lane2_complete active) && ss_count active == 4

/-- Source lines 184, 190, 217: `(lane1_complete and not lane2_complete) or
(lane2_complete and not lane1_complete)` — exactly one lane complete. -/
def one_lane_only (active : List String) : Bool :=
  (lane1_complete active && ! lane2_complete active)
    || (lane2_complete active && ! lane1_complete active)

/-- The orientation note string of source lines 185, 191, 198, 218. -/
def orientationStr : String := "Works in one orientation only"

/-- Source lines 169-221: the classification decision chain.  Returns
`(cable_type, cable_note, orientation_note)`; `orientation_note` is `""`
unless a branch sets it.  Note that the charging branch (source line 206)
tests `power`, which is `power_full` (source line 138). -/
def classification (active : List String) (counts : Option (List (String × Nat)))
    (lc rc : Option String) : String × String × String :=
  if broken_pairs active counts lc rc ≠ [] then
    ("DAMAGED CABLE - Broken wiring detected",
     "This cable has broken or missing connections. Do not use for data transfer.", "")
  else if mismatch_ss active lc rc then
    ("Mismatch: Connector selection vs detected wiring",
     "Selected connectors do not match detected SuperSpeed wiring.", "")
  else if full_ss active && sbu_count active == 2 && usb2 active && cc_present active then
    ("Premium USB-C Cable (Full Featured)",
     "Supports high-speed data, Alt-Mode (video/display output), and advanced features.",
     if one_lane_only active then orientationStr else "")
  else if full_ss active && usb2 active && cc_present active then
    ("USB 3.x Fast Data Cable",
     "Supports high-speed data transfer. Good for modern devices.",
     if one_lane_only active then orientationStr else "")
  else if usb2 active && single_lane_ss active then
    if legacy_usb3_candidate active lc rc then
      ("USB 3.x Data Cable (Single-Lane)",
       "Single SuperSpeed lane detected (legacy USB 3.0 connectors).", "")
    else
      ("USB 3.x Data Cable (Single-Lane)",
       "Single SuperSpeed lane detected (common in USB-A/B to USB-C cables).",
       orientationStr)
  else if usb2 active && ! full_ss active && ! partial_ss active then
    ("USB 2.0 Data Cable",
     if legacy_usb2_candidate active lc rc then
       "Legacy USB 2.0 wiring detected (USB-A/B/Micro/Mini/Lightning)."
     else
       "Good for basic data transfer, charging, and older devices.", "")
  else if power_full counts lc rc && ! usb2 active && ss_count active == 0 then
    ("Charging Cable", "Supports power delivery only. Not suitable for data transfer.", "")
  else if power_partial counts lc rc && ! usb2 active && ss_count active == 0 then
    ("Charging Cable (Incomplete Power Wiring)",
     "Power wiring is incomplete. Charging may be unstable or unsafe.", "")
  else if usb2 active && partial_ss active then
    ("NON-STANDARD Cable",
     "Has incomplete or damaged SuperSpeed connections. May work but not recommended.",
     if one_lane_only active then orientationStr else "")
  else
    ("Unknown Cable", "Unable to determine cable type. May be defective.", "")

/-- Source line 227: `left_connector or 'Unknown'` (after the line-106
defaulting, a falsy connector is the empty string). -/
def connShow (c : Option String) : String :=
  if connStr c == "" then "Unknown" else connStr c

/-- Source lines 224-230: headline, rationale, optional connectors line,
optional orientation note. -/
def headerLines (active : List String) (counts : Option (List (String × Nat)))
    (lc rc : Option String) : List String :=
  let ct := classification active counts lc rc
  [ct.1, ct.2.1]
    ++ (if connStr lc != "" || connStr rc != "" then
          ["Selected connectors: " ++ connShow lc ++ " ↔ " ++ connShow rc]
        else [])
    ++ (if ct.2.2 != "" then ["Note: " ++ ct.2.2] else [])

/-- Source lines 233-238: the Capabilities block. -/
def capabilitiesLines (active : List String) (counts : Option (List (String × Nat)))
    (lc rc : Option String) : List String :=
  ["\nCapabilities:",
   "  • USB 2.0 data: "
     ++ (if usb2 active then "Yes" else if usb2_partial active then "Partial" else "No"),
   "  • Power delivery: "
     ++ (if power_full counts lc rc then "Yes"
         else if power_partial counts lc rc then "Partial" else "No"),
   "  • SuperSpeed (USB 3.x): "
     ++ (if full_ss active then "Yes" else if partial_ss active then "Partial" else "No")
     ++ " (expected " ++ toString (expected_ss_pins lc rc) ++ "/8 pins)",
   "  • Alt-Mode wiring (SBU): "
     ++ (if sbu_count active == 2 then "Yes"
         else if sbu_count active == 1 then "Partial" else "No")
     ++ " (not a guarantee of Alt-Mode)"]

/-- Source lines 240-253: the SuperSpeed Lanes block. -/
def lanesLines (active : List String) : List String :=
  ["\nSuperSpeed Lanes (" ++ toString (ss_count active) ++ "/8 pins detected):",
   (if lane1_complete active then "  • Lane 1 (TX1/RX1): OK"
    else if decide (0 < (lane1_pins active).length) then
      "  • Lane 1 (TX1/RX1): INCOMPLETE (" ++ toString (lane1_pins active).length ++ "/4 pins)"
    else "  • Lane 1 (TX1/RX1): MISSING"),
   (if lane2_complete active then "  • Lane 2 (TX2/RX2): OK"
    else if decide (0 < (lane2_pins active).length) then
      "  • Lane 2 (TX2/RX2): INCOMPLETE (" ++ toString (lane2_pins active).length ++ "/4 pins)"
    else "  • Lane 2 (TX2/RX2): MISSING")]

/-- Source lines 256-259: the optional Broken Differential Pairs block. -/
def brokenLines (active : List String) (counts : Option (List (String × Nat)))
    (lc rc : Option String) : List String :=
  let bp := broken_pairs active counts lc rc
  if bp == [] then [] else
    "\nBroken Differential Pairs:" :: bp.map (fun s => "  • " ++ s)

/-- Source lines 261-264: the optional Wiring Warnings block. -/
def warningsLines (active : List String) (lc rc : Option String) : List String :=
  let ws := wiring_warnings active lc rc
  if ws == [] then [] else
    "\nWiring Warnings:" :: ws.map (fun s => "  • " ++ s)

/-- Source lines 266-268: the Configuration block. -/
def configLines (active : List String) : List String :=
  ["\nConfiguration:",
   "  • CC (Config Channel): "
     ++ (if cc_count active == 2 then "Yes"
         else if cc_count active == 1 then "Partial" else "No"),
   "  • SBU (Sideband): " ++ toString (sbu_count active) ++ "/2 lines"]

/-- Everything the source appends to `report` before the Checked Pins
block (lines 224-268): the part of the report that does not depend on the
checked-pin lists. -/
def coreLines (active : List String) (counts : Option (List (String × Nat)))
    (lc rc : Option String) : List String :=
  headerLines active counts lc rc
    ++ capabilitiesLines active counts lc rc
    ++ lanesLines active
    ++ brokenLines active counts lc rc
    ++ warningsLines active lc rc
    ++ configLines active

/-- Whether a character counts as whitespace for Python's `str.split()`:
for the ASCII range this is exactly 0x09-0x0D, 0x1C-0x1F and the space. -/
def pyIsSpace (c : Char) : Bool :=
  c == ' ' || (decide (9 ≤ c.toNat) && decide (c.toNat ≤ 13))
    || (decide (28 ≤ c.toNat) && decide (c.toNat ≤ 31))

/-- Splits a character list on whitespace runs, dropping empty pieces;
the first argument accumulates the current token in reverse. -/
def pySplitChars (acc : List Char) : List Char → List String
  | [] => if acc.isEmpty then [] else [String.mk acc.reverse]
  | c :: t =>
    if pyIsSpace c then
      (if acc.isEmpty then [] else [String.mk acc.reverse]) ++ pySplitChars [] t
    else pySplitChars (c :: acc) t

/-- Python `p.split()`: split on whitespace, dropping empty pieces.
Exact for ASCII strings (`pyIsSpace` is Python's whitespace on ASCII). -/
def pySplit (s : String) : List String :=
  pySplitChars [] s.data

/-- Python `t.isdigit()`, exact for ASCII strings: the only ASCII digit
characters are '0'-'9', and `int()` succeeds on every non-empty ASCII
string of them.  Python's `isdigit()` additionally accepts non-ASCII
digit characters such as '²' on which `int()` then raises ValueError;
that error path lies outside the ASCII scope to which the totality
theorem C7_thm restricts its checked-pin labels. -/
def isDigitStr (t : String) : Bool :=
  ! t.data.isEmpty && t.data.all (fun c => c.isDigit)

/-- Whether every character of a string is ASCII.  On such strings the
models of `str.split()`, `str.isdigit()` and `int()` below are exact. -/
def isAsciiStr (s : String) : Bool :=
  s.data.all (fun c => decide (c.toNat < 128))

/-- Decimal value of a digit string (Python `int(t)` for `t.isdigit()`). -/
def digitsToNat (acc : Nat) : List Char → Nat
  | [] => acc
  | c :: t => digitsToNat (acc * 10 + (c.toNat - '0'.toNat)) t

/-- Python `int(t)` on an all-digit string. -/
def pyInt (t : String) : Nat := digitsToNat 0 t.data

/-- The sort key of source lines 273 and 276:
`int(p.split()[0]) if p.split()[0].isdigit() else 999`.  Returns `none`
when `p.split()` is empty, where the Python expression raises IndexError.
Exact for ASCII labels; for a non-ASCII label whose first token passes
Python's `isdigit()` with non-decimal digit characters (e.g. "² GND"),
the Python key raises ValueError, which this model does not represent
(see `isDigitStr`) — hence the ASCII restriction in C7_thm. -/
def checkedKey (p : String) : Option Nat :=
  match pySplit p with
  | [] => none
  | t :: _ => some (if isDigitStr t then pyInt t else 999)

/-- Total version of `checkedKey` used inside the sort once every key is
known to be defined. -/
def checkedKeyD (p : String) : Nat := (checkedKey p).getD 0

/-- Stable insertion by key: `x` is placed before the first element with a
strictly larger key, after existing elements with equal keys. -/
def insertByKey (x : String) : List String → List String
  | [] => [x]
  | y :: ys => if checkedKeyD x ≤ checkedKeyD y then x :: y :: ys else y :: insertByKey x ys

/-- `sorted(chk, key=...)` of source lines 273/276: a stable sort by the
numeric position key, mirroring Python's stable `sorted`. -/
def sortedChecked : List String → List String
  | [] => []
  | x :: xs => insertByKey x (sortedChecked xs)

/-- Python `sep.join(parts)`. -/
def joinWith (sep : String) : List String → String
  | [] => ""
  | [x] => x
  | x :: xs => x ++ sep ++ joinWith sep xs

/-- One side's contribution to the Checked Pins block (source lines
272-277); `none` models the IndexError raised while computing a sort key. -/
def checkedSide (label : String) (chk : List String) : Option (List String) :=
  if chk == [] then some []
  else if chk.all (fun p => (checkedKey p).isSome) then
    some [label ++ joinWith ", " (sortedChecked chk)]
  else none

/-- Source lines 270-277: the optional Checked Pins block; `none` models a
raised IndexError. -/
def checkedSection (lchk rchk : List String) : Option (List String) :=
  if lchk == [] && rchk == [] then some []
  else
    match checkedSide "  Left (Row B): " lchk, checkedSide "  Right (Row A): " rchk with
    | some a, some b => some ("\nChecked Pins:" :: (a ++ b))
    | _, _ => none

/-- The full report as a list of lines: the core report followed by the
Checked Pins block; `none` models a raised IndexError. -/
def reportLines (active : List String) (counts : Option (List (String × Nat)))
    (lc rc : Option String) (lchk rchk : List String) : Option (List String) :=
  (checkedSection lchk rchk).map (fun cs => coreLines active counts lc rc ++ cs)

/-- Source lines 51-279: the standalone analysis function.
`return "\n".join(report)`; `none` models a raised IndexError. -/
def analyze_cable (active : List String) (pin_counts : Option (List (String × Nat)))
    (lc rc : Option String) (lchk rchk : List String) : Option String :=
  (reportLines active pin_counts lc rc lchk rchk).map (joinWith "\n")

/-! ### Helper lemmas -/

/-- Membership in a conditionally-empty list implies membership in the
non-empty branch. -/
theorem mem_ite_nil {α : Type} {b : Bool} {s : α} {l : List α}
    (h : s ∈ (if b = true then l else [])) : s ∈ l := by
  cases b
  · simp at h
  · simpa using h

/-- The only entries a lane can contribute to the defect list. -/
theorem mem_laneDefects {s n : String} {lane active : List String}
    (h : s ∈ laneDefects n lane active) :
    s = n ++ " TX pair broken" ∨ s = n ++ " RX pair broken" := by
  unfold laneDefects at h
  rcases List.mem_append.mp h with h | h
  · exact Or.inl (List.mem_singleton.mp (mem_ite_nil h))
  · exact Or.inr (List.mem_singleton.mp (mem_ite_nil h))

/-- Every broken-pair entry is one of the seven fixed defect strings. -/
theorem mem_broken_pairs {s : String} {active : List String}
    {counts : Option (List (String × Nat))} {lc rc : Option String}
    (h : s ∈ broken_pairs active counts lc rc) :
    s = "Lane 1 TX pair broken" ∨ s = "Lane 1 RX pair broken"
      ∨ s = "Lane 2 TX pair broken" ∨ s = "Lane 2 RX pair broken"
      ∨ s = "USB 2.0 D+/D- pair broken"
      ∨ s = "Power wiring incomplete (VBUS/GND)"
      ∨ s = "CC wiring missing (USB-C selected)" := by
  unfold broken_pairs at h
  simp only [List.mem_append] at h
  rcases h with (((h | h) | h) | h)
  · rcases List.mem_append.mp (mem_ite_nil h) with h | h
    · rcases mem_laneDefects h with h | h
      · exact Or.inl h
      · exact Or.inr (Or.inl h)
    · rcases mem_laneDefects h with h | h
      · exact Or.inr (Or.inr (Or.inl h))
      · exact Or.inr (Or.inr (Or.inr (Or.inl h)))
  · exact Or.inr (Or.inr (Or.inr (Or.inr (Or.inl (List.mem_singleton.mp (mem_ite_nil h))))))
  · exact Or.inr (Or.inr (Or.inr (Or.inr (Or.inr (Or.inl
      (List.mem_singleton.mp (mem_ite_nil h)))))))
  · exact Or.inr (Or.inr (Or.inr (Or.inr (Or.inr (Or.inr
      (List.mem_singleton.mp (mem_ite_nil h)))))))

/-- If `single_lane_ss` holds, exactly one SuperSpeed lane is complete. -/
theorem single_lane_one {active : List String} (h : single_lane_ss active = true) :
    one_lane_only active = true := by
  unfold single_lane_ss at h
  unfold one_lane_only
  cases h1 : lane1_complete active <;> cases h2 : lane2_complete active <;>
    rw [h1, h2] at h <;> simp_all

/-- With an empty defect list, the classification is never the damaged one. -/
theorem classification_ne_damaged {active : List String}
    {counts : Option (List (String × Nat))} {lc rc : Option String}
    (h : broken_pairs active counts lc rc = []) :
    (classification active counts lc rc).1 ≠ "DAMAGED CABLE - Broken wiring detected" := by
  unfold classification
  rw [if_neg (fun hne => hne h)]
  repeat' split
  all_goals decide

/-! ### Claim theorems -/

/-- C1 counterexample: with `active_pins = {VBUS, GND}`, no `pin_counts`
and no connectors declared, `power_full` is false (presence in
`active_pins` is NOT treated as count 1) and the classification is
"Unknown Cable", not the claimed "Charging Cable". -/
theorem C1_cex :
    power_full none none none = false
      ∧ (classification ["VBUS", "GND"] none none none).1 = "Unknown Cable"
      ∧ ("Unknown Cable" : String) ≠ "Charging Cable" := by
  decide

/-- C1 (amended): when `pin_counts` is not supplied both counts are 0, so
`power_full` is false; supplying `pin_counts = {VBUS: 1, GND: 1}` with
`active_pins = {VBUS, GND}` and no 3.x connector makes `power_full` true
and the classification CHARGING_CABLE. -/
theorem C1_thm :
    vbus_count none = 0 ∧ gnd_count none = 0
      ∧ power_full (some [("VBUS", 1), ("GND", 1)]) none none = true
      ∧ (classification ["VBUS", "GND"] (some [("VBUS", 1), ("GND", 1)]) none none).1
          = "Charging Cable" := by
  decide

/-- C2 counterexample: for `active_pins = {TX1+, D+, D-}` with no
connectors declared, no broken-pair defect is emitted at all (the lane
check requires `expected_ss_pins > 0`), and the classification is
CONNECTOR_MISMATCH, not the claimed DAMAGED_CABLE. -/
theorem C2_cex :
    broken_pairs ["TX1+", "D+", "D-"] none none none = []
      ∧ (classification ["TX1+", "D+", "D-"] none none none).1
          = "Mismatch: Connector selection vs detected wiring"
      ∧ ("Mismatch: Connector selection vs detected wiring" : String)
          ≠ "DAMAGED CABLE - Broken wiring detected" := by
  decide

/-- C2 (amended): lane broken-pair detection runs only when
`expected_ss_pins > 0` (a 3.x connector is declared); under that
precondition, exactly one active pin of a lane's TX pair yields
"Lane N TX pair broken" (likewise for the RX pair). -/
theorem C2_thm (active : List String) (counts : Option (List (String × Nat)))
    (lc rc : Option String) (h : 0 < expected_ss_pins lc rc) :
    (tx_active LANE_1 active = 1 →
        "Lane 1 TX pair broken" ∈ broken_pairs active counts lc rc)
    ∧ (rx_active LANE_1 active = 1 →
        "Lane 1 RX pair broken" ∈ broken_pairs active counts lc rc)
    ∧ (tx_active LANE_2 active = 1 →
        "Lane 2 TX pair broken" ∈ broken_pairs active counts lc rc)
    ∧ (rx_active LANE_2 active = 1 →
        "Lane 2 RX pair broken" ∈ broken_pairs active counts lc rc) := by
  refine ⟨fun hx => ?_, fun hx => ?_, fun hx => ?_, fun hx => ?_⟩ <;>
    simp [broken_pairs, laneDefects, h, hx, List.mem_append]

/-- C2 witness: with a legacy 3.0 connector declared, the spec scenario
pin set does produce the Lane 1 TX defect. -/
theorem C2_witness :
    "Lane 1 TX pair broken"
      ∈ broken_pairs ["TX1+", "D+", "D-"] none (some "Type A 3.0") none :=
  (C2_thm ["TX1+", "D+", "D-"] none (some "Type A 3.0") none (by decide)).1 (by decide)

/-- C3: whenever the broken-pair list is non-empty, the classification is
DAMAGED_CABLE, regardless of every other flag (the damaged branch is the
first branch of the decision chain). -/
theorem C3_thm (active : List String) (counts : Option (List (String × Nat)))
    (lc rc : Option String) (h : broken_pairs active counts lc rc ≠ []) :
    (classification active counts lc rc).1 = "DAMAGED CABLE - Broken wiring detected" := by
  unfold classification
  rw [if_pos h]

/-- C3 witness: a concrete damaged input reaches the damaged headline. -/
theorem C3_witness :
    (classification ["TX1+"] none (some "Type A 3.0") none).1
      = "DAMAGED CABLE - Broken wiring detected" :=
  C3_thm ["TX1+"] none (some "Type A 3.0") none (by decide)

set_option maxHeartbeats 1000000 in
/-- C10: with `pin_counts` omitted or empty, both power flags are false,
the power defect is never emitted, the Power delivery line reads "No",
and the two charging classifications are unreachable. -/
theorem C10_thm (active : List String) (counts : Option (List (String × Nat)))
    (lc rc : Option String) (h : counts = none ∨ counts = some []) :
    power_full counts lc rc = false
    ∧ power_partial counts lc rc = false
    ∧ "Power wiring incomplete (VBUS/GND)" ∉ broken_pairs active counts lc rc
    ∧ (classification active counts lc rc).1 ≠ "Charging Cable"
    ∧ (classification active counts lc rc).1 ≠ "Charging Cable (Incomplete Power Wiring)"
    ∧ "  • Power delivery: No" ∈ coreLines active counts lc rc := by
  have hv : vbus_count counts = 0 := by rcases h with h | h <;> subst h <;> rfl
  have hg : gnd_count counts = 0 := by rcases h with h | h <;> subst h <;> rfl
  have hpf : power_full counts lc rc = false := by
    unfold power_full
    rw [hv, hg]
    split <;> decide
  have hpp : power_partial counts lc rc = false := by
    unfold power_partial
    rw [hv, hg, hpf]
    decide
  refine ⟨hpf, hpp, ?_, ?_, ?_, ?_⟩
  · intro hmem
    unfold broken_pairs at hmem
    rw [hpp] at hmem
    simp only [List.mem_append] at hmem
    rcases hmem with (((hm | hm) | hm) | hm)
    · rcases List.mem_append.mp (mem_ite_nil hm) with hm | hm <;>
        rcases mem_laneDefects hm with hm | hm <;> exact absurd hm (by decide)
    · exact absurd (List.mem_singleton.mp (mem_ite_nil hm)) (by decide)
    · simp at hm
    · exact absurd (List.mem_singleton.mp (mem_ite_nil hm)) (by decide)
  · unfold classification
    split_ifs <;>
      first
        | decide
        | (rename_i hcond; rw [hpf] at hcond; simp at hcond)
        | (rename_i hcond; rw [hpp] at hcond; simp at hcond)
  · unfold classification
    split_ifs <;>
      first
        | decide
        | (rename_i hcond; rw [hpf] at hcond; simp at hcond)
        | (rename_i hcond; rw [hpp] at hcond; simp at hcond)
  · unfold coreLines capabilitiesLines
    rw [hpf, hpp]
    simp [List.mem_append]

/-- C4 counterexample: for `{D+, D-, TX1+, TX1-, RX1+, RX1-}` with a
legacy "Type A 3.0" left connector, the outcome is USB3_SINGLE_LANE and
exactly one lane is complete, yet the orientation note is absent (the
legacy branch suppresses it). -/
theorem C4_cex :
    (classification ["D+", "D-", "TX1+", "TX1-", "RX1+", "RX1-"] none
        (some "Type A 3.0") none).1 = "USB 3.x Data Cable (Single-Lane)"
    ∧ one_lane_only ["D+", "D-", "TX1+", "TX1-", "RX1+", "RX1-"] = true
    ∧ (classification ["D+", "D-", "TX1+", "TX1-", "RX1+", "RX1-"] none
        (some "Type A 3.0") none).2.2 = ""
    ∧ ("" : String) ≠ orientationStr := by
  decide

set_option maxHeartbeats 1000000 in
/-- C4 (amended): for the PREMIUM_USB_C, USB3_FAST_DATA and NON_STANDARD
outcomes the orientation note is present iff exactly one lane is
complete; for USB3_SINGLE_LANE it is present iff exactly one lane is
complete AND the legacy-USB3 candidate flag is false. -/
theorem C4_thm (active : List String) (counts : Option (List (String × Nat)))
    (lc rc : Option String) :
    ((classification active counts lc rc).1 = "Premium USB-C Cable (Full Featured)"
        ∨ (classification active counts lc rc).1 = "USB 3.x Fast Data Cable"
        ∨ (classification active counts lc rc).1 = "NON-STANDARD Cable" →
      ((classification active counts lc rc).2.2 = orientationStr
        ↔ one_lane_only active = true))
    ∧ ((classification active counts lc rc).1 = "USB 3.x Data Cable (Single-Lane)" →
      ((classification active counts lc rc).2.2 = orientationStr
        ↔ (one_lane_only active = true
            ∧ legacy_usb3_candidate active lc rc = false))) := by
  unfold classification
  split_ifs <;>
    first
      | exact ⟨fun hx => absurd hx (by decide), fun hx => absurd hx (by decide)⟩
      | (rename_i ho
         exact ⟨fun _ => ⟨fun _ => ho, fun _ => rfl⟩, fun hx => absurd hx (by decide)⟩)
      | (rename_i ho
         exact ⟨fun _ => ⟨fun hx => absurd hx (by decide), fun hl => absurd hl ho⟩,
           fun hx => absurd hx (by decide)⟩)
      | (rename_i hleg
         exact ⟨fun hx => absurd hx (by decide),
           fun _ => ⟨fun hx => absurd hx (by decide),
             fun hp => absurd hleg (by simp [hp.2])⟩⟩)
      | (rename_i hcond hleg
         have hsl : single_lane_ss active = true := by
           simp only [Bool.and_eq_true] at hcond
           exact hcond.2
         have hlf : legacy_usb3_candidate active lc rc = false := by
           revert hleg
           cases legacy_usb3_candidate active lc rc <;> simp
         exact ⟨fun hx => absurd hx (by decide),
           fun _ => ⟨fun _ => ⟨single_lane_one hsl, hlf⟩, fun _ => rfl⟩⟩)

/-- C4 witness: a NON_STANDARD outcome with exactly one complete lane
carries the orientation note. -/
theorem C4_witness :
    (classification
        ["TX1+", "TX1-", "RX1+", "RX1-", "TX2+", "TX2-", "D+", "D-", "CC1", "CC2"]
        (some [("VBUS", 2), ("GND", 4)]) (some "Type C 3.0") (some "Type C 3.0")).2.2
      = orientationStr :=
  ((C4_thm
      ["TX1+", "TX1-", "RX1+", "RX1-", "TX2+", "TX2-", "D+", "D-", "CC1", "CC2"]
      (some [("VBUS", 2), ("GND", 4)]) (some "Type C 3.0") (some "Type C 3.0")).1
    (Or.inr (Or.inr (by decide)))).mpr (by decide)

/-- C5 counterexample: with left "Type C 3.0" and right "Type A 3.0",
`usb_c_any` is true, so the Lane-2 forcing rule does not apply: a pin set
containing Lane-2 pins yields `mismatch_ss = false` and classification
NON_STANDARD, not the claimed CONNECTOR_MISMATCH. -/
theorem C5_cex :
    ("TX2+" : String) ∈ LANE_2
    ∧ ("TX2+" : String) ∈ (["TX2+", "TX2-", "D+", "D-", "CC1", "CC2"] : List String)
    ∧ mismatch_ss ["TX2+", "TX2-", "D+", "D-", "CC1", "CC2"]
        (some "Type C 3.0") (some "Type A 3.0") = false
    ∧ (classification ["TX2+", "TX2-", "D+", "D-", "CC1", "CC2"] none
        (some "Type C 3.0") (some "Type A 3.0")).1 = "NON-STANDARD Cable"
    ∧ ("NON-STANDARD Cable" : String) ≠ "Mismatch: Connector selection vs detected wiring" := by
  decide

/-- C5 (amended): the Lane-2 forcing requires that NO side is USB-C; with
legacy "Type A 3.0"/"Type B 3.0" connectors, any active Lane-2 pin forces
`mismatch_ss` true, and if no broken-pair defect is present the
classification is CONNECTOR_MISMATCH. -/
theorem C5_thm (active : List String) (counts : Option (List (String × Nat)))
    (h : lane2_pins active ≠ []) :
    mismatch_ss active (some "Type A 3.0") (some "Type B 3.0") = true
    ∧ (broken_pairs active counts (some "Type A 3.0") (some "Type B 3.0") = [] →
        (classification active counts (some "Type A 3.0") (some "Type B 3.0")).1
          = "Mismatch: Connector selection vs detected wiring") := by
  have h2 : 0 < (lane2_pins active).length := List.length_pos.mpr h
  have hm : mismatch_ss active (some "Type A 3.0") (some "Type B 3.0") = true := by
    unfold mismatch_ss
    have hy : usb3_any (some "Type A 3.0") (some "Type B 3.0") = true := by decide
    have hz : usb_c_any (some "Type A 3.0") (some "Type B 3.0") = false := by decide
    rw [hy, hz]
    simp [h2]
  refine ⟨hm, fun hb => ?_⟩
  unfold classification
  rw [if_neg (fun hne => hne hb), if_pos hm]

/-- C5 witness: an otherwise feature-complete pin set still classifies as
CONNECTOR_MISMATCH under legacy 3.0 connectors. -/
theorem C5_witness :
    (classification
        ["TX1+", "TX1-", "RX1+", "RX1-", "TX2+", "TX2-", "RX2+", "RX2-",
         "D+", "D-", "CC1", "CC2", "SBU1", "SBU2"] none
        (some "Type A 3.0") (some "Type B 3.0")).1
      = "Mismatch: Connector selection vs detected wiring" :=
  (C5_thm
    ["TX1+", "TX1-", "RX1+", "RX1-", "TX2+", "TX2-", "RX2+", "RX2-",
     "D+", "D-", "CC1", "CC2", "SBU1", "SBU2"] none (by decide)).2 (by decide)

/-- C6: with a USB-C connector declared and no CC pin, the fatal
"CC wiring missing" defect is emitted; with a full USB-C candidate and
exactly one CC pin, only the advisory warning is emitted, it never
appears among the broken pairs, and with an empty broken-pair list the
classification is never DAMAGED_CABLE. -/
theorem C6_thm (active : List String) (counts : Option (List (String × Nat)))
    (lc rc : Option String) :
    (usb_c_any lc rc = true → cc_count active = 0 →
        "CC wiring missing (USB-C selected)" ∈ broken_pairs active counts lc rc)
    ∧ (full_usb_c_candidate lc rc = true → cc_count active = 1 →
        wiring_warnings active lc rc = ["CC wiring incomplete (USB-C)"]
        ∧ "CC wiring incomplete (USB-C)" ∉ broken_pairs active counts lc rc
        ∧ (broken_pairs active counts lc rc = [] →
            (classification active counts lc rc).1
              ≠ "DAMAGED CABLE - Broken wiring detected")) := by
  refine ⟨fun h1 h2 => ?_, fun h1 h2 => ⟨?_, ?_, fun hb => classification_ne_damaged hb⟩⟩
  · simp [broken_pairs, List.mem_append, h1, h2]
  · unfold wiring_warnings
    simp [h1, h2]
  · intro hmem
    rcases mem_broken_pairs hmem with h | h | h | h | h | h | h <;> exact absurd h (by decide)

/-- C6 witness: the fatal case at an empty pin set with USB-C declared,
and the advisory case at a premium set missing CC2. -/
theorem C6_witness :
    ("CC wiring missing (USB-C selected)"
        ∈ broken_pairs [] none (some "Type C 3.0") none)
    ∧ wiring_warnings
        ["TX1+", "TX1-", "RX1+", "RX1-", "TX2+", "TX2-", "RX2+", "RX2-",
         "D+", "D-", "SBU1", "SBU2", "CC1"]
        (some "Type C 3.0") (some "Type C 3.0") = ["CC wiring incomplete (USB-C)"] :=
  ⟨(C6_thm [] none (some "Type C 3.0") none).1 (by decide) (by decide),
   ((C6_thm
      ["TX1+", "TX1-", "RX1+", "RX1-", "TX2+", "TX2-", "RX2+", "RX2-",
       "D+", "D-", "SBU1", "SBU2", "CC1"] none
      (some "Type C 3.0") (some "Type C 3.0")).2 (by decide) (by decide)).1⟩

/-- A side's Checked Pins entry is produced whenever every label has a
first whitespace-separated token. -/
theorem checkedSide_isSome (label : String) (chk : List String)
    (h : ∀ p ∈ chk, pySplit p ≠ []) : (checkedSide label chk).isSome = true := by
  unfold checkedSide
  split
  · rfl
  · rw [if_pos]
    · rfl
    · rw [List.all_eq_true]
      intro p hp
      have hne := h p hp
      unfold checkedKey
      cases hs : pySplit p
      · exact absurd hs hne
      · rfl

/-- The Checked Pins block is produced whenever every label of both sides
has a first whitespace-separated token. -/
theorem checkedSection_isSome (lchk rchk : List String)
    (hl : ∀ p ∈ lchk, pySplit p ≠ []) (hr : ∀ p ∈ rchk, pySplit p ≠ []) :
    (checkedSection lchk rchk).isSome = true := by
  unfold checkedSection
  split
  · rfl
  · obtain ⟨a, ha⟩ :=
      Option.isSome_iff_exists.mp (checkedSide_isSome "  Left (Row B): " lchk hl)
    obtain ⟨b, hb⟩ :=
      Option.isSome_iff_exists.mp (checkedSide_isSome "  Right (Row A): " rchk hr)
    rw [ha, hb]
    rfl

/-- C7 counterexample: a checked-pin label with no whitespace-separated
token (the empty string) makes the checked-pins sort key raise
IndexError, modelled here as `analyze_cable` returning `none`: the
function is not total over its declared input types. -/
theorem C7_cex : analyze_cable [] none none none [""] [] = none := by
  decide

/-- C7 (amended): for inputs whose checked-pin labels are ASCII — the
scope on which the model of the sort key is exact — `analyze_cable`
returns a report whenever every label contains a non-whitespace
character (so its first split token exists and, being ASCII, is safe for
`int()`); with no pins, counts or connectors at all, the classification
degrades to UNKNOWN.  Outside ASCII, Python has a further raise path
(ValueError on labels like "² GND") not covered by this statement. -/
theorem C7_thm (active : List String) (counts : Option (List (String × Nat)))
    (lc rc : Option String) (lchk rchk : List String)
    (hal : ∀ p ∈ lchk, isAsciiStr p = true) (har : ∀ p ∈ rchk, isAsciiStr p = true)
    (hl : ∀ p ∈ lchk, pySplit p ≠ []) (hr : ∀ p ∈ rchk, pySplit p ≠ []) :
    (analyze_cable active counts lc rc lchk rchk).isSome = true
    ∧ (classification [] none none none).1 = "Unknown Cable" := by
  constructor
  · unfold analyze_cable reportLines
    obtain ⟨cs, hcs⟩ :=
      Option.isSome_iff_exists.mp (checkedSection_isSome lchk rchk hl hr)
    rw [hcs]
    rfl
  · decide

/-- C7 witness: a report is produced for well-formed ASCII checked
labels. -/
theorem C7_witness :
    (analyze_cable ["D+"] none none none ["01 GND"] ["02 RX2+"]).isSome = true
    ∧ (classification [] none none none).1 = "Unknown Cable" :=
  C7_thm ["D+"] none none none ["01 GND"] ["02 RX2+"]
    (by decide) (by decide) (by decide) (by decide)

set_option maxHeartbeats 2000000 in
/-- C8: the report depends on the active-pin collection only through
membership: any two active-pin lists with the same members (in
particular, any reordering) produce identical reports, and all other
arguments being equal, the function is deterministic. -/
theorem C8_thm (a1 a2 : List String) (counts : Option (List (String × Nat)))
    (lc rc : Option String) (lchk rchk : List String)
    (h : ∀ p, p ∈ a1 ↔ p ∈ a2) :
    analyze_cable a1 counts lc rc lchk rchk = analyze_cable a2 counts lc rc lchk rchk := by
  have hc : ∀ p : String, a1.contains p = a2.contains p := by
    intro p
    show a1.elem p = a2.elem p
    rw [List.elem_eq_mem, List.elem_eq_mem]
    simp [h p]
  simp only [analyze_cable, reportLines, coreLines, headerLines, capabilitiesLines,
    lanesLines, brokenLines, warningsLines, configLines, classification, broken_pairs,
    laneDefects, wiring_warnings, mismatch_ss, single_lane_ss, one_lane_only,
    legacy_usb2_candidate, legacy_usb3_candidate, usb2, usb2_partial, partial_ss,
    full_ss, ss_count, cc_count, cc_present, sbu_count, lane1_pins, lane2_pins,
    lane1_complete, lane2_complete, tx_active, rx_active, interCount, hc]

/-- C8 witness: two differently-ordered (and differently-duplicated)
presentations of the same pin set give the same report. -/
theorem C8_witness :
    analyze_cable ["D+", "D-"] none none none [] []
      = analyze_cable ["D-", "D+", "D+"] none none none [] [] :=
  C8_thm ["D+", "D-"] ["D-", "D+", "D+"] none none none [] []
    (by intro p; simp [List.mem_cons]; tauto)

/-- C9: the checked-pin lists are display-only: any two successful
reports for the same pins, counts and connectors agree on the entire
core report (headline, rationale, note, capabilities, lanes, broken
pairs, warnings, configuration); they can differ only in the trailing
Checked Pins block. -/
theorem C9_thm (active : List String) (counts : Option (List (String × Nat)))
    (lc rc : Option String) (lchk1 rchk1 lchk2 rchk2 ls1 ls2 : List String)
    (h1 : reportLines active counts lc rc lchk1 rchk1 = some ls1)
    (h2 : reportLines active counts lc rc lchk2 rchk2 = some ls2) :
    ls1.take (coreLines active counts lc rc).length = coreLines active counts lc rc
    ∧ ls2.take (coreLines active counts lc rc).length = coreLines active counts lc rc := by
  unfold reportLines at h1 h2
  cases hcs : checkedSection lchk1 rchk1 with
  | none => rw [hcs] at h1; cases h1
  | some cs1 =>
    rw [hcs] at h1
    cases hcs2 : checkedSection lchk2 rchk2 with
    | none => rw [hcs2] at h2; cases h2
    | some cs2 =>
      rw [hcs2] at h2
      simp only [Option.map_some'] at h1 h2
      cases Option.some.inj h1
      cases Option.some.inj h2
      exact ⟨List.take_left _ _, List.take_left _ _⟩

/-- C9 witness: with and without a checked-pin list, the report lines
agree on the whole core report. -/
theorem C9_witness :
    ((coreLines ["D+", "D-"] none none none
        ++ ["\nChecked Pins:", "  Left (Row B): 01 GND"]).take
          (coreLines ["D+", "D-"] none none none).length
        = coreLines ["D+", "D-"] none none none)
    ∧ ((coreLines ["D+", "D-"] none none none ++ ([] : List String)).take
          (coreLines ["D+", "D-"] none none none).length
        = coreLines ["D+", "D-"] none none none) :=
  C9_thm ["D+", "D-"] none none none ["01 GND"] [] [] []
    (coreLines ["D+", "D-"] none none none ++ ["\nChecked Pins:", "  Left (Row B): 01 GND"])
    (coreLines ["D+", "D-"] none none none ++ [])
    (by rfl) (by rfl)

/-- C10 witness: the concrete no-counts charging scenario. -/
theorem C10_witness :
    power_full none none none = false
    ∧ power_partial none none none = false
    ∧ "Power wiring incomplete (VBUS/GND)" ∉ broken_pairs ["VBUS", "GND"] none none none
    ∧ (classification ["VBUS", "GND"] none none none).1 ≠ "Charging Cable"
    ∧ (classification ["VBUS", "GND"] none none none).1
        ≠ "Charging Cable (Incomplete Power Wiring)"
    ∧ "  • Power delivery: No" ∈ coreLines ["VBUS", "GND"] none none none :=
  C10_thm ["VBUS", "GND"] none none none (Or.inl rfl)

end USBCable
